import Mathlib

/-!
Verification of the burn compute-runtime core (client/server/channel, runtime
registry, adapter selection, autotuning façade) against its natural-language
specification. The Rust sources embedded here are
`crates/burn-wgpu/src/runtime.rs` and `crates/burn-compute/src/client.rs`;
collaborator types that live outside those files are modelled from the spec and
say so in their doc comments.
-/

namespace Burn

/-- The wgpu device types (`wgpu::DeviceType`), as matched on in
`select_adapter` (runtime.rs). -/
inductive DeviceType where
  | DiscreteGpu
  | IntegratedGpu
  | VirtualGpu
  | Cpu
  | Other
deriving DecidableEq

/-- The part of `wgpu::AdapterInfo` the runtime reads: the numeric device id and
backend name (for `tuner_device_id`, runtime.rs:174-176) and the device type
(for `select_adapter`). -/
structure AdapterInfo where
  device : Nat
  backend : String
  device_type : DeviceType
deriving DecidableEq

/-- A wgpu adapter, reduced to the information the runtime inspects via
`Adapter::get_info()`. -/
structure Adapter where
  info : AdapterInfo
deriving DecidableEq

/-- `WgpuDevice` (the device-identity type used as registry key in
runtime.rs). -/
inductive WgpuDevice where
  | DiscreteGpu (index : Nat)
  | IntegratedGpu (index : Nat)
  | VirtualGpu (index : Nat)
  | Cpu
  | BestAvailable
  | Existing (id : Nat)
deriving DecidableEq

/-- Modelled from the spec: the deallocation strategy of the Memory Manager,
"reclaim freed regions only every N executed tasks" (§3). The type lives in
burn-compute/src/memory_management, which is not under src/; only the
period-tick form used by the wgpu runtime is modelled. -/
inductive DeallocStrategy where
  | PeriodTick (period : Nat)
deriving DecidableEq

/-- `DeallocStrategy::new_period_tick` as called in `RuntimeOptions::default`
(runtime.rs:76). -/
def DeallocStrategy.new_period_tick (period : Nat) : DeallocStrategy :=
  DeallocStrategy.PeriodTick period

/-- The tick period stored in a `DeallocStrategy`. -/
def DeallocStrategy.period : DeallocStrategy → Nat
  | DeallocStrategy.PeriodTick p => p

/-- Modelled from the spec: the slice strategy, a "policy deciding whether a new
allocation request ... can be satisfied by slicing an existing region ...
parameterized by a minimum fill ratio" (§3). The type lives in
burn-compute/src/memory_management, not under src/. The floating-point literal
`0.8` of runtime.rs:77 is modelled as the rational number it denotes. -/
inductive SliceStrategy where
  | Never
  | Ratio (minimum_fill : ℚ)
deriving DecidableEq

/-- `RuntimeOptions` (runtime.rs:57-64): the values that control how a WGPU
runtime performs its calculations. -/
structure RuntimeOptions where
  dealloc_strategy : DeallocStrategy
  slice_strategy : SliceStrategy
  max_tasks : Nat
deriving DecidableEq

/-- `RuntimeOptions::default` (runtime.rs:66-81). The environment is passed
explicitly: `some v` models `BURN_WGPU_MAX_TASKS` being set and parsing to `v`;
`none` models the `Err` branch (variable unset). A set-but-unparsable value
makes the source panic before any options exist, so it has no result to
model. -/
def RuntimeOptions.default (burn_wgpu_max_tasks : Option Nat) : RuntimeOptions :=
  let max_tasks :=
    match burn_wgpu_max_tasks with
    | some value => value
    | none => 64
  { dealloc_strategy := DeallocStrategy.new_period_tick (max_tasks * 2)
    slice_strategy := SliceStrategy.Ratio (0.8 : ℚ)
    max_tasks := max_tasks }

/-- Modelled from the spec: Storage is the "raw device-memory allocator" (§2),
constructed from the wgpu device (`WgpuStorage::new(device)` in
`create_client`); WgpuStorage lives in burn-wgpu/src/compute, not under src/.
Only its construction is needed here; the device is an opaque id. -/
structure WgpuStorage where
  device_id : Nat
deriving DecidableEq

/-- `WgpuStorage::new` as called in `create_client` (runtime.rs:131). -/
def WgpuStorage.new (device_id : Nat) : WgpuStorage :=
  { device_id := device_id }

/-- Modelled from the spec: the Memory Manager tracks buffers over Storage and
holds "a deallocation strategy ... and a slice strategy" (§3);
SimpleMemoryManagement lives in burn-compute/src/memory_management, not under
src/. Only its construction from those three arguments is needed here. -/
structure SimpleMemoryManagement where
  storage : WgpuStorage
  dealloc_strategy : DeallocStrategy
  slice_strategy : SliceStrategy
deriving DecidableEq

/-- `SimpleMemoryManagement::new` as called in `create_client`
(runtime.rs:132-133). -/
def SimpleMemoryManagement.new (storage : WgpuStorage)
    (dealloc_strategy : DeallocStrategy) (slice_strategy : SliceStrategy) :
    SimpleMemoryManagement :=
  { storage := storage
    dealloc_strategy := dealloc_strategy
    slice_strategy := slice_strategy }

/-- Modelled from the spec: the Server "owns exactly one Memory Manager and one
device command queue" and a batching bound (§2, §4.2); WgpuServer lives in
burn-wgpu/src/compute, not under src/. Device and queue are opaque ids. -/
structure WgpuServer where
  memory_management : SimpleMemoryManagement
  device_id : Nat
  queue_id : Nat
  max_tasks : Nat
deriving DecidableEq

/-- `WgpuServer::new` as called in `create_client` (runtime.rs:134). -/
def WgpuServer.new (memory_management : SimpleMemoryManagement)
    (device_id queue_id : Nat) (max_tasks : Nat) : WgpuServer :=
  { memory_management := memory_management
    device_id := device_id
    queue_id := queue_id
    max_tasks := max_tasks }

/-- Modelled from the spec: the Channel "serializes concurrent access to a
single Server instance" as "a mutual-exclusion wrapper" (§2, §4.3);
MutexComputeChannel lives in burn-compute/src/channel, not under src/. It is
the server behind the mutex. -/
structure MutexComputeChannel where
  server : WgpuServer
deriving DecidableEq

/-- `MutexComputeChannel::new` as called in `create_client` (runtime.rs:135). -/
def MutexComputeChannel.new (server : WgpuServer) : MutexComputeChannel :=
  { server := server }

/-- Modelled from the spec: a fresh Tuner is constructed per client from a
device-id string (§4.6 "a fresh Tuner"); Tuner lives in burn-compute/src/tune,
not under src/. Only the construction is needed here. -/
structure Tuner where
  device_id : String
deriving DecidableEq

/-- `Tuner::new` as called in `create_client` (runtime.rs:137). -/
def Tuner.new (device_id : String) : Tuner :=
  { device_id := device_id }

/-- `tuner_device_id` (runtime.rs:174-176). -/
def tuner_device_id (info : AdapterInfo) : String :=
  "wgpu-" ++ toString info.device ++ "-" ++ info.backend

/-- The wgpu `ComputeClient` value built by `create_client`: a mutex channel
and a tuner (client.rs:14-18 instantiated at the wgpu types). -/
structure WgpuClient where
  channel : MutexComputeChannel
  tuner : Tuner
deriving DecidableEq

/-- `create_client` (runtime.rs:122-138): builds Storage, Memory Manager,
Server, Channel and a fresh Tuner from the adapter, device, queue and
options. -/
def create_client (adapter : Adapter) (device_id queue_id : Nat)
    (options : RuntimeOptions) : WgpuClient :=
  let storage := WgpuStorage.new device_id
  let memory_management :=
    SimpleMemoryManagement.new storage options.dealloc_strategy
      options.slice_strategy
  let server := WgpuServer.new memory_management device_id queue_id
    options.max_tasks
  let channel := MutexComputeChannel.new server
  let tuner_id := tuner_device_id adapter.info
  { channel := channel, tuner := Tuner.new tuner_id }

end Burn

namespace Burn

/-- The operations a `ComputeChannel` provides, as state transformers over an
abstract channel state `σ` (the `ComputeChannel` trait lives in
burn-compute/src/channel, not under src/; client.rs only forwards to it, so
its operations stay abstract). `H` is the handle type, `K` the kernel type,
`R` the reader type returned by `read`, `F` the custom-command closure
type, and `Bytes` host data. -/
structure ChannelOps (σ H K R F Bytes : Type) where
  read : σ → H → R × σ
  create : σ → Bytes → H × σ
  empty : σ → Nat → H × σ
  execute : σ → K → List H → σ
  sync : σ → σ
  run_custom_command : σ → F → List H → σ

/-- `ComputeClient` (client.rs:14-18): a channel and a shared tuner, the tuner
state abstracted as `τ`. -/
structure ComputeClient (σ τ : Type) where
  channel : σ
  tuner : τ

/-- `ComputeClient::read` (client.rs:44-46): forwards to the channel. -/
def ComputeClient.read {σ H K R F Bytes τ : Type} (ops : ChannelOps σ H K R F Bytes)
    (c : ComputeClient σ τ) (handle : H) : R × ComputeClient σ τ :=
  let out := ops.read c.channel handle
  (out.1, { c with channel := out.2 })

/-- `ComputeClient::create` (client.rs:49-51): forwards to the channel. -/
def ComputeClient.create {σ H K R F Bytes τ : Type} (ops : ChannelOps σ H K R F Bytes)
    (c : ComputeClient σ τ) (data : Bytes) : H × ComputeClient σ τ :=
  let out := ops.create c.channel data
  (out.1, { c with channel := out.2 })

/-- `ComputeClient::empty` (client.rs:54-56): forwards to the channel. -/
def ComputeClient.empty {σ H K R F Bytes τ : Type} (ops : ChannelOps σ H K R F Bytes)
    (c : ComputeClient σ τ) (size : Nat) : H × ComputeClient σ τ :=
  let out := ops.empty c.channel size
  (out.1, { c with channel := out.2 })

/-- `ComputeClient::execute` (client.rs:59-61): forwards to the channel. -/
def ComputeClient.execute {σ H K R F Bytes τ : Type} (ops : ChannelOps σ H K R F Bytes)
    (c : ComputeClient σ τ) (kernel : K) (handles : List H) :
    ComputeClient σ τ :=
  { c with channel := ops.execute c.channel kernel handles }

/-- `ComputeClient::sync` (client.rs:64-66): forwards to the channel. -/
def ComputeClient.sync {σ H K R F Bytes τ : Type} (ops : ChannelOps σ H K R F Bytes)
    (c : ComputeClient σ τ) : ComputeClient σ τ :=
  { c with channel := ops.sync c.channel }

/-- `ComputeClient::run_custom_command` (client.rs:85-92): forwards to the
channel. -/
def ComputeClient.run_custom_command {σ H K R F Bytes τ : Type} (ops : ChannelOps σ H K R F Bytes)
    (c : ComputeClient σ τ) (f : F) (handles : List H) : ComputeClient σ τ :=
  { c with channel := ops.run_custom_command c.channel f handles }

/-- Reference-level view of a `ComputeClient` for the Clone impl
(client.rs:20-31): `channel` is the Arc inside the `MutexComputeChannel`
pointing at the `Mutex<Server>`, `tuner` the `Arc<RwLock<Tuner>>`; an Arc is
modelled as the index of its target in a heap, so that cloning an Arc yields
the same index. The channel's own Clone (an Arc clone, modelled from the
spec: "shares Channel and Tuner references", §4.4) lives in
burn-compute/src/channel, not under src/. -/
structure ClientRefs where
  channel : Nat
  tuner : Nat
deriving DecidableEq

/-- `impl Clone for ComputeClient` (client.rs:25-30): clones the channel
reference and the tuner Arc. -/
def ClientRefs.clone (c : ClientRefs) : ClientRefs :=
  { channel := c.channel, tuner := c.tuner }

/-- The events visible at the Tuner's lock boundary during the autotune entry
points of client.rs (autotune keys and variant indices are naturals). -/
inductive TunerEvent where
  | acquire_read
  | release_read
  | acquire_write
  | release_write
  | cache_lookup (key : Nat)
  | benchmark (variant : Nat)
  | cache_insert (key : Nat) (winner : Nat)
  | execute_variant (variant : Nat)
deriving DecidableEq

/-- The Tuner state the autotune claims are about: the cache from autotune key
to fastest-variant index (§3 "Tuner cache"). -/
structure TunerState where
  cache : Nat → Option Nat

/-- Modelled from the spec: `Tuner::autotune_fastest` is a "pure lookup" of
the cached fastest-variant index (§4.5); burn-compute/src/tune is not under
src/. -/
def TunerState.autotune_fastest (t : TunerState) (key : Nat) : Option Nat :=
  t.cache key

/-- Modelled from the spec: the benchmarking pass selects "the minimum-time
variant" (§4.5 step 3); burn-compute/src/tune is not under src/. `times v` is
the measured time of variant `v`. -/
def fastest_variant (variants : List Nat) (times : Nat → Nat) : Nat :=
  (variants.foldl
    (fun best v =>
      match best with
      | none => some v
      | some b => if times v < times b then some v else some b)
    none).getD 0

/-- Modelled from the spec: the event trace of `Tuner::execute_autotune`
(§4.5 steps 1-4): on a cache hit, execute the cached variant directly; on a
miss, benchmark every variant, insert the minimum-time winner into the cache,
and execute it. burn-compute/src/tune is not under src/. -/
def execute_autotune_events (cache : Nat → Option Nat) (key : Nat)
    (variants : List Nat) (times : Nat → Nat) : List TunerEvent :=
  match cache key with
  | some fastest =>
      [TunerEvent.cache_lookup key, TunerEvent.execute_variant fastest]
  | none =>
      TunerEvent.cache_lookup key ::
        (variants.map TunerEvent.benchmark ++
          [TunerEvent.cache_insert key (fastest_variant variants times),
            TunerEvent.execute_variant (fastest_variant variants times)])

/-- `ComputeClient::autotune_execute` (client.rs:69-77): acquires the tuner
WRITE lock, runs the whole `execute_autotune` call under it, then releases. -/
def autotune_execute_events (cache : Nat → Option Nat) (key : Nat)
    (variants : List Nat) (times : Nat → Nat) : List TunerEvent :=
  TunerEvent.acquire_write ::
    (execute_autotune_events cache key variants times ++
      [TunerEvent.release_write])

/-- `ComputeClient::autotune_result` (client.rs:79-82): acquires the tuner
READ lock, performs `autotune_fastest`, releases. Returns the looked-up value,
the tuner state after the call, and the lock trace. -/
def autotune_result (t : TunerState) (key : Nat) :
    (Option Nat × TunerState) × List TunerEvent :=
  ((TunerState.autotune_fastest t key, t),
    [TunerEvent.acquire_read, TunerEvent.cache_lookup key,
      TunerEvent.release_read])

/-- One step of the write-lock scan over a trace: tracks the write-lock depth
and collects the events that occur while the write lock is held. -/
def write_scan_step (acc : Nat × List TunerEvent) (e : TunerEvent) :
    Nat × List TunerEvent :=
  match e with
  | TunerEvent.acquire_write => (acc.1 + 1, acc.2)
  | TunerEvent.release_write => (acc.1 - 1, acc.2)
  | e => if 0 < acc.1 then (acc.1, acc.2 ++ [e]) else acc

/-- The events of a trace that occur while the tuner write lock is held. -/
def write_locked_events (events : List TunerEvent) : List TunerEvent :=
  (events.foldl write_scan_step (0, [])).2

/-- Modelled from the spec: `ComputeRuntime::client` (§4.6) — burn-compute's
ComputeRuntime is not under src/. The registry is a map from device identity
to an optional client; the call either returns the stored client, or invokes
`init_fn`, stores its result and returns it. The last component counts the
invocations of `init_fn` made by this call. -/
def ComputeRuntime.client {D C : Type} [DecidableEq D] (reg : D → Option C)
    (device : D) (init_fn : Unit → C) : C × (D → Option C) × Nat :=
  match reg device with
  | some client => (client, reg, 0)
  | none =>
    let client := init_fn ()
    (client, fun d => if d = device then some client else reg d, 1)

/-- Modelled from the spec: `ComputeRuntime::register` stores a pre-built
client under a device identity (called by `init_existing_device`,
runtime.rs:92); burn-compute's ComputeRuntime is not under src/. -/
def ComputeRuntime.register {D C : Type} [DecidableEq D] (reg : D → Option C)
    (device : D) (client : C) : D → Option C :=
  fun d => if d = device then some client else reg d

/-- The `is_same_type` match inside `select_adapter`'s enumeration loop
(runtime.rs:210-219). The `Existing` arm panics in the source; it is
unreachable because `select_adapter` already panicked on `Existing` before
the loop (runtime.rs:196-198), so the value returned for it is irrelevant. -/
def is_same_type : WgpuDevice → DeviceType → Bool
  | WgpuDevice.DiscreteGpu _, t => t == DeviceType.DiscreteGpu
  | WgpuDevice.IntegratedGpu _, t => t == DeviceType.IntegratedGpu
  | WgpuDevice.VirtualGpu _, t => t == DeviceType.VirtualGpu
  | WgpuDevice.Cpu, t => t == DeviceType.Cpu
  | WgpuDevice.BestAvailable, _ => true
  | WgpuDevice.Existing _, _ => false

/-- The inner `select` function of `select_adapter` (runtime.rs:226-252):
index `num` into the same-type adapters, falling back to the `Other`-type
adapters at the same index, and panicking (modelled as `Except.error`) when
both lists have at most `num` elements. -/
def select (num : Nat) (error_message : String)
    (adapters adapters_other : List Adapter) : Except String Adapter :=
  if adapters.length ≤ num then
    if adapters_other.length ≤ num then Except.error error_message
    else
      match adapters_other[num]? with
      | some adapter => Except.ok adapter
      | none => Except.error error_message
  else
    match adapters[num]? with
    | some adapter => Except.ok adapter
    | none => Except.error error_message

/-- The BestAvailable ranking (runtime.rs:283-290). -/
def score : DeviceType → Int
  | DeviceType.DiscreteGpu => 5
  | DeviceType.Other => 4
  | DeviceType.IntegratedGpu => 3
  | DeviceType.VirtualGpu => 2
  | DeviceType.Cpu => 1

/-- One step of the BestAvailable fold (runtime.rs:281-296): replace the
current best exactly when this adapter's score strictly exceeds the running
score. -/
def best_step (acc : Option Adapter × Int) (adapter : Adapter) :
    Option Adapter × Int :=
  if acc.2 < score adapter.info.device_type then
    (some adapter, score adapter.info.device_type)
  else acc

/-- The BestAvailable selection (runtime.rs:274-303): fold `best_step` over
the given adapters starting from no adapter and score -1. -/
def select_best (adapters : List Adapter) : Option Adapter :=
  (adapters.foldl best_step (none, -1)).1

/-- `select_adapter` (runtime.rs:188-310, non-wasm): panics immediately on an
`Existing` device; otherwise partitions the enumerated adapters into
`Other`-type adapters and same-type adapters (each in enumeration order) and
selects per device identity. Panics are modelled as `Except.error`. -/
def select_adapter (device : WgpuDevice) (enumerated : List Adapter) :
    Except String Adapter :=
  if (match device with | WgpuDevice.Existing _ => true | _ => false) then
    Except.error "Cannot automatically create a client for an existing device! Please use init_existing_device instead."
  else
    let adapters_other :=
      enumerated.filter fun a => a.info.device_type == DeviceType.Other
    let adapters := enumerated.filter fun a =>
      a.info.device_type != DeviceType.Other &&
        is_same_type device a.info.device_type
    match device with
    | WgpuDevice.DiscreteGpu num =>
        select num "No Discrete GPU device found" adapters adapters_other
    | WgpuDevice.IntegratedGpu num =>
        select num "No Integrated GPU device found" adapters adapters_other
    | WgpuDevice.VirtualGpu num =>
        select num "No Virtual GPU device found" adapters adapters_other
    | WgpuDevice.Cpu => select 0 "No CPU device found" adapters adapters_other
    | WgpuDevice.BestAvailable =>
        match select_best (adapters ++ adapters_other) with
        | some adapter => Except.ok adapter
        | none => Except.error "No adapter found for graphics API"
    | WgpuDevice.Existing _ => Except.error "unreachable"

/-- `select_device` (runtime.rs:141-172): select an adapter, then request the
device and queue from it. The wgpu `request_device` call is external and
passed in as `request_device`, returning a (device id, queue id) pair. -/
def select_device (request_device : Adapter → Nat × Nat) (device : WgpuDevice)
    (enumerated : List Adapter) : Except String (Nat × Nat × Adapter) :=
  match select_adapter device enumerated with
  | Except.error e => Except.error e
  | Except.ok adapter =>
      Except.ok
        ((request_device adapter).1, (request_device adapter).2, adapter)

/-- `WgpuRuntime::client` (runtime.rs:44-49): `RUNTIME.client(device, init_fn)`
where `init_fn` runs `create_wgpu_setup` (i.e. `select_device`) and
`create_client` with default options. The registry behaviour is that of
`ComputeRuntime.client` (modelled from the spec, §4.6) lifted to `Except` so
that a panic inside `init_fn` propagates: a registry hit returns the stored
client without running `init_fn`; a miss builds the client, stores and
returns it; a panic in adapter selection aborts with no client stored. -/
def WgpuRuntime.client (reg : WgpuDevice → Option WgpuClient)
    (request_device : Adapter → Nat × Nat) (enumerated : List Adapter)
    (burn_wgpu_max_tasks : Option Nat) (device : WgpuDevice) :
    Except String (WgpuClient × (WgpuDevice → Option WgpuClient)) :=
  match reg device with
  | some client => Except.ok (client, reg)
  | none =>
    match select_device request_device device enumerated with
    | Except.error e => Except.error e
    | Except.ok out =>
        let client := create_client out.2.2 out.1 out.2.1
          (RuntimeOptions.default burn_wgpu_max_tasks)
        Except.ok (client, ComputeRuntime.register reg device client)

/-- `init_existing_device` (runtime.rs:83-94): builds a client from the given
adapter, device and queue, registers it under `WgpuDevice::Existing custom_id`
and returns that identity together with the updated registry. -/
def init_existing_device (reg : WgpuDevice → Option WgpuClient)
    (custom_id : Nat) (adapter : Adapter) (device_id queue_id : Nat)
    (options : RuntimeOptions) :
    WgpuDevice × (WgpuDevice → Option WgpuClient) :=
  let client := create_client adapter device_id queue_id options
  let device := WgpuDevice.Existing custom_id
  (device, ComputeRuntime.register reg device client)

/-- The running maximum of `score` over a list of adapters starting from `s`
(the score component of the BestAvailable fold). -/
def max_score (s : Int) (adapters : List Adapter) : Int :=
  adapters.foldl (fun m a => max m (score a.info.device_type)) s

end Burn

namespace Burn

/-- C3: each of `ComputeClient::read/create/empty/execute/sync/
run_custom_command` calls exactly the corresponding channel operation with the
same arguments, returns its result unchanged, and performs no other effect —
in particular the tuner component is untouched by all six. -/
theorem compute_client_forwards_to_channel {σ H K R F Bytes τ : Type}
    (ops : ChannelOps σ H K R F Bytes) (c : ComputeClient σ τ) (handle : H)
    (data : Bytes) (size : Nat) (kernel : K) (handles : List H) (f : F) :
    (ComputeClient.read ops c handle).1 = (ops.read c.channel handle).1 ∧
    (ComputeClient.read ops c handle).2.channel
        = (ops.read c.channel handle).2 ∧
    (ComputeClient.read ops c handle).2.tuner = c.tuner ∧
    (ComputeClient.create ops c data).1 = (ops.create c.channel data).1 ∧
    (ComputeClient.create ops c data).2.channel
        = (ops.create c.channel data).2 ∧
    (ComputeClient.create ops c data).2.tuner = c.tuner ∧
    (ComputeClient.empty ops c size).1 = (ops.empty c.channel size).1 ∧
    (ComputeClient.empty ops c size).2.channel = (ops.empty c.channel size).2 ∧
    (ComputeClient.empty ops c size).2.tuner = c.tuner ∧
    (ComputeClient.execute ops c kernel handles).channel
        = ops.execute c.channel kernel handles ∧
    (ComputeClient.execute ops c kernel handles).tuner = c.tuner ∧
    (ComputeClient.sync ops c).channel = ops.sync c.channel ∧
    (ComputeClient.sync ops c).tuner = c.tuner ∧
    (ComputeClient.run_custom_command ops c f handles).channel
        = ops.run_custom_command c.channel f handles ∧
    (ComputeClient.run_custom_command ops c f handles).tuner = c.tuner := by
  refine ⟨rfl, rfl, rfl, rfl, rfl, rfl, rfl, rfl, rfl, rfl, rfl, rfl, rfl,
    rfl, rfl⟩

/-- C4: `clone()` yields a client whose tuner reference is the very same shared
tuner, whose channel reference is the clone of the channel reference (the same
Arc target), and which therefore sees the identical server state — no server
state is duplicated: any heap lookup through the clone's channel reference
agrees with the original's. -/
theorem compute_client_clone_shares (c : ClientRefs)
    (heap : Nat → Option WgpuServer) (tuner_heap : Nat → Option Tuner) :
    (ClientRefs.clone c).tuner = c.tuner ∧
    (ClientRefs.clone c).channel = c.channel ∧
    tuner_heap (ClientRefs.clone c).tuner = tuner_heap c.tuner ∧
    heap (ClientRefs.clone c).channel = heap c.channel := by
  exact ⟨rfl, rfl, rfl, rfl⟩

/-- C2: the default `RuntimeOptions` set `max_tasks` to 64 unless
`BURN_WGPU_MAX_TASKS` overrides it, and set the deallocation-tick period to
exactly twice `max_tasks`, for every value the override takes. -/
theorem default_options_max_tasks_and_dealloc_period
    (burn_wgpu_max_tasks : Option Nat) :
    (RuntimeOptions.default burn_wgpu_max_tasks).max_tasks
        = burn_wgpu_max_tasks.getD 64 ∧
    (RuntimeOptions.default burn_wgpu_max_tasks).dealloc_strategy.period
        = 2 * (RuntimeOptions.default burn_wgpu_max_tasks).max_tasks := by
  cases burn_wgpu_max_tasks <;>
    simp [RuntimeOptions.default, DeallocStrategy.new_period_tick,
      DeallocStrategy.period, Option.getD, Nat.mul_comm]

/-- C8: `RuntimeOptions` exposes the slice-reuse policy as the configurable
`slice_strategy` field — `create_client` hands whatever the options carry to
the memory manager unchanged — and its default is `Ratio 0.8`. -/
theorem slice_strategy_is_configurable (burn_wgpu_max_tasks : Option Nat)
    (adapter : Adapter) (device_id queue_id : Nat) (options : RuntimeOptions) :
    (RuntimeOptions.default burn_wgpu_max_tasks).slice_strategy
        = SliceStrategy.Ratio (0.8 : ℚ) ∧
    (create_client adapter device_id queue_id
        options).channel.server.memory_management.slice_strategy
      = options.slice_strategy := by
  constructor
  · cases burn_wgpu_max_tasks <;> rfl
  · rfl

/-- C6: `ComputeClient::autotune_result` is a pure lookup: it returns the
cached fastest-variant index for the key, leaves the tuner state unchanged,
and its lock trace consists of acquiring the read lock, the lookup, and
releasing the read lock — nothing else. -/
theorem autotune_result_is_pure_lookup (t : TunerState) (key : Nat) :
    (autotune_result t key).1.1 = TunerState.autotune_fastest t key ∧
    TunerState.autotune_fastest t key = t.cache key ∧
    (autotune_result t key).1.2 = t ∧
    (autotune_result t key).2
      = [TunerEvent.acquire_read, TunerEvent.cache_lookup key,
          TunerEvent.release_read] :=
  ⟨rfl, rfl, rfl, rfl⟩

/-- While the write lock is held (positive depth) and the trace contains no
lock events, the write-lock scan collects every event. -/
theorem write_scan_collects (l : List TunerEvent) :
    ∀ (n : Nat) (acc : List TunerEvent), 0 < n →
      (∀ e ∈ l, e ≠ TunerEvent.acquire_write ∧
        e ≠ TunerEvent.release_write) →
      l.foldl write_scan_step (n, acc) = (n, acc ++ l) := by
  induction l with
  | nil => intro n acc _ _; simp
  | cons e t ih =>
    intro n acc hn hl
    obtain ⟨h1, h2⟩ := hl e (List.mem_cons_self e t)
    have hstep : write_scan_step (n, acc) e = (n, acc ++ [e]) := by
      cases e
      case acquire_write => exact absurd rfl h1
      case release_write => exact absurd rfl h2
      all_goals simp [write_scan_step, hn]
    rw [List.foldl_cons, hstep,
      ih n (acc ++ [e]) hn fun x hx => hl x (List.mem_cons_of_mem e hx)]
    simp

/-- `execute_autotune` emits no lock events of its own: all locking is done by
the client wrapper around it. -/
theorem execute_autotune_no_lock_events (cache : Nat → Option Nat) (key : Nat)
    (variants : List Nat) (times : Nat → Nat) :
    ∀ e ∈ execute_autotune_events cache key variants times,
      e ≠ TunerEvent.acquire_write ∧ e ≠ TunerEvent.release_write := by
  intro e he
  unfold execute_autotune_events at he
  cases hck : cache key with
  | some fastest =>
    rw [hck] at he
    simp only [List.mem_cons, List.not_mem_nil, or_false] at he
    rcases he with rfl | rfl <;> exact ⟨nofun, nofun⟩
  | none =>
    rw [hck] at he
    simp only [List.mem_cons, List.mem_append, List.mem_map,
      List.not_mem_nil, or_false] at he
    rcases he with rfl | ⟨v, _, rfl⟩ | rfl | rfl <;> exact ⟨nofun, nofun⟩

/-- C5 (amended): the read path and the write path are protected
independently and `autotune_result` takes only the shared read lock, but
`autotune_execute` holds the exclusive write lock for the ENTIRE
`execute_autotune` call — the events under the write lock are exactly the
whole pass (benchmarks included), not only the cache insert. -/
theorem autotune_write_lock_spans_whole_pass (cache : Nat → Option Nat)
    (key : Nat) (variants : List Nat) (times : Nat → Nat) (t : TunerState) :
    write_locked_events (autotune_execute_events cache key variants times)
        = execute_autotune_events cache key variants times ∧
    (autotune_result t key).2
        = [TunerEvent.acquire_read, TunerEvent.cache_lookup key,
            TunerEvent.release_read] ∧
    write_locked_events (autotune_result t key).2 = [] := by
  refine ⟨?_, rfl, rfl⟩
  unfold write_locked_events autotune_execute_events
  rw [List.foldl_cons,
    show write_scan_step (0, []) TunerEvent.acquire_write = (1, []) from rfl,
    List.foldl_append write_scan_step (1, [])
      (execute_autotune_events cache key variants times)
      [TunerEvent.release_write],
    write_scan_collects _ 1 [] Nat.one_pos
      (execute_autotune_no_lock_events cache key variants times)]
  simp [write_scan_step]

/-- C5 counterexample: with an empty cache, key 0, variants `[0, 1]` and
constant benchmark times, the benchmark events happen while the exclusive
write lock on the tuner is held — refuting that exclusive access is acquired
only for the cache insert. -/
theorem autotune_write_lock_not_insert_only :
    TunerEvent.benchmark 0 ∈
      write_locked_events
        (autotune_execute_events (fun _ => none) 0 [0, 1] fun _ => 0) ∧
    ¬ (∀ e ∈ write_locked_events
          (autotune_execute_events (fun _ => none) 0 [0, 1] fun _ => 0),
        ∃ k w, e = TunerEvent.cache_insert k w) := by
  constructor
  · decide
  · intro h
    rcases h (TunerEvent.benchmark 0) (by decide) with ⟨k, w, hkw⟩
    exact absurd hkw (by simp)

/-- C1: the Runtime Registry's `client(device, init_fn)` returns the stored
client untouched when one exists (zero `init_fn` invocations); otherwise it
invokes `init_fn` exactly once, stores its result under the device identity
and returns it; and it never replaces an already-stored client, so at most
one server exists per device identity for the registry's lifetime. -/
theorem compute_runtime_client_spec {D C : Type} [DecidableEq D]
    (reg : D → Option C) (device : D) (init_fn : Unit → C) :
    (∀ c0, reg device = some c0 →
        ComputeRuntime.client reg device init_fn = (c0, reg, 0)) ∧
    (reg device = none →
        (ComputeRuntime.client reg device init_fn).1 = init_fn () ∧
        (ComputeRuntime.client reg device init_fn).2.1 device
            = some (init_fn ()) ∧
        (ComputeRuntime.client reg device init_fn).2.2 = 1) ∧
    (∀ d c0, reg d = some c0 →
        (ComputeRuntime.client reg device init_fn).2.1 d = some c0) := by
  refine ⟨?_, ?_, ?_⟩
  · intro c0 h
    simp [ComputeRuntime.client, h]
  · intro h
    refine ⟨?_, ?_, ?_⟩ <;> simp [ComputeRuntime.client, h]
  · intro d c0 h
    cases hdev : reg device with
    | some c1 => simp [ComputeRuntime.client, hdev, h]
    | none =>
      by_cases hd : d = device
      · subst hd
        rw [h] at hdev
        cases hdev
      · simp [ComputeRuntime.client, hdev, hd, h]

/-- Witness for C1 at a concrete cold registry: the call invokes `init_fn`,
returns 42, stores it under device 0, and reports one invocation. -/
theorem compute_runtime_client_spec_witness :
    (ComputeRuntime.client (fun _ : Nat => (none : Option Nat)) 0
        fun _ => 42).1 = 42 ∧
    (ComputeRuntime.client (fun _ : Nat => (none : Option Nat)) 0
        fun _ => 42).2.1 0 = some 42 ∧
    (ComputeRuntime.client (fun _ : Nat => (none : Option Nat)) 0
        fun _ => 42).2.2 = 1 :=
  (compute_runtime_client_spec (fun _ : Nat => none) 0 fun _ => 42).2.1 rfl

/-- The same-type filter used by `select_adapter` for a `DiscreteGpu` device
is exactly the discrete-GPU filter. -/
theorem discrete_filter_eq (enumerated : List Adapter) (num : Nat) :
    (enumerated.filter fun a =>
        a.info.device_type != DeviceType.Other &&
          is_same_type (WgpuDevice.DiscreteGpu num) a.info.device_type)
      = enumerated.filter fun a =>
          a.info.device_type == DeviceType.DiscreteGpu := by
  apply List.filter_congr
  intro a _
  obtain ⟨⟨d, b, t⟩⟩ := a
  cases t <;> rfl

/-- C7: when fewer than `num + 1` discrete-GPU adapters and fewer than
`num + 1` `Other`-type adapters are available, requesting `DiscreteGpu num`
fails fatally in adapter selection, and the full client path surfaces that
failure before any client is produced. -/
theorem discrete_gpu_no_adapter_is_fatal (num : Nat)
    (enumerated : List Adapter) (reg : WgpuDevice → Option WgpuClient)
    (request_device : Adapter → Nat × Nat) (burn_wgpu_max_tasks : Option Nat)
    (hreg : reg (WgpuDevice.DiscreteGpu num) = none)
    (hd : (enumerated.filter fun a =>
        a.info.device_type == DeviceType.DiscreteGpu).length ≤ num)
    (ho : (enumerated.filter fun a =>
        a.info.device_type == DeviceType.Other).length ≤ num) :
    select_adapter (WgpuDevice.DiscreteGpu num) enumerated
        = Except.error "No Discrete GPU device found" ∧
    WgpuRuntime.client reg request_device enumerated burn_wgpu_max_tasks
        (WgpuDevice.DiscreteGpu num)
      = Except.error "No Discrete GPU device found" := by
  have hsel : select_adapter (WgpuDevice.DiscreteGpu num) enumerated
      = Except.error "No Discrete GPU device found" := by
    rw [show select_adapter (WgpuDevice.DiscreteGpu num) enumerated
        = select num "No Discrete GPU device found"
            (enumerated.filter fun a =>
              a.info.device_type != DeviceType.Other &&
                is_same_type (WgpuDevice.DiscreteGpu num) a.info.device_type)
            (enumerated.filter fun a =>
              a.info.device_type == DeviceType.Other) from rfl,
      discrete_filter_eq]
    simp [select, hd, ho]
  refine ⟨hsel, ?_⟩
  unfold WgpuRuntime.client select_device
  rw [hreg, hsel]

/-- Witness for C7: with no adapters at all and a cold registry, requesting
`DiscreteGpu 0` errors out of both adapter selection and the client path. -/
theorem discrete_gpu_no_adapter_is_fatal_witness :
    select_adapter (WgpuDevice.DiscreteGpu 0) []
        = Except.error "No Discrete GPU device found" ∧
    WgpuRuntime.client (fun _ => none) (fun _ => (0, 0)) [] none
        (WgpuDevice.DiscreteGpu 0)
      = Except.error "No Discrete GPU device found" :=
  discrete_gpu_no_adapter_is_fatal 0 [] (fun _ => none) (fun _ => (0, 0))
    none rfl (by simp) (by simp)

/-- C10: the automatic path for an `Existing` identity panics in
`select_adapter` before touching the adapter list, so with no registered
client the full `WgpuRuntime::client` call aborts without constructing one;
an `Existing`-device client only arises through `init_existing_device`, which
registers the pre-built client under `WgpuDevice.Existing custom_id` and
returns that identity. -/
theorem existing_device_only_via_init (id custom_id : Nat)
    (enumerated : List Adapter) (reg : WgpuDevice → Option WgpuClient)
    (request_device : Adapter → Nat × Nat) (burn_wgpu_max_tasks : Option Nat)
    (adapter : Adapter) (device_id queue_id : Nat) (options : RuntimeOptions)
    (hreg : reg (WgpuDevice.Existing id) = none) :
    select_adapter (WgpuDevice.Existing id) enumerated
        = Except.error "Cannot automatically create a client for an existing device! Please use init_existing_device instead." ∧
    WgpuRuntime.client reg request_device enumerated burn_wgpu_max_tasks
        (WgpuDevice.Existing id)
      = Except.error "Cannot automatically create a client for an existing device! Please use init_existing_device instead." ∧
    (init_existing_device reg custom_id adapter device_id queue_id options).1
        = WgpuDevice.Existing custom_id ∧
    (init_existing_device reg custom_id adapter device_id queue_id
        options).2 (WgpuDevice.Existing custom_id)
      = some (create_client adapter device_id queue_id options) := by
  have hsel : select_adapter (WgpuDevice.Existing id) enumerated
      = Except.error "Cannot automatically create a client for an existing device! Please use init_existing_device instead." := rfl
  refine ⟨hsel, ?_, rfl, ?_⟩
  · unfold WgpuRuntime.client select_device
    rw [hreg, hsel]
  · simp [init_existing_device, ComputeRuntime.register]

/-- Witness for C10 at concrete inputs: the automatic path for
`Existing 3` errors on a cold registry, and `init_existing_device` with
custom id 7 returns the identity `Existing 7` with the client registered. -/
theorem existing_device_only_via_init_witness :
    WgpuRuntime.client (fun _ => none) (fun _ => (0, 0)) [] none
        (WgpuDevice.Existing 3)
      = Except.error "Cannot automatically create a client for an existing device! Please use init_existing_device instead." ∧
    (init_existing_device (fun _ => none) 7 ⟨⟨0, "vulkan", DeviceType.DiscreteGpu⟩⟩
        0 0 (RuntimeOptions.default none)).1 = WgpuDevice.Existing 7 :=
  ⟨(existing_device_only_via_init 3 7 [] (fun _ => none) (fun _ => (0, 0))
      none ⟨⟨0, "vulkan", DeviceType.DiscreteGpu⟩⟩ 0 0
      (RuntimeOptions.default none) rfl).2.1,
    (existing_device_only_via_init 3 7 [] (fun _ => none) (fun _ => (0, 0))
      none ⟨⟨0, "vulkan", DeviceType.DiscreteGpu⟩⟩ 0 0
      (RuntimeOptions.default none) rfl).2.2.1⟩

/-- The starting score is a lower bound of the running maximum. -/
theorem le_max_score (l : List Adapter) : ∀ s : Int, s ≤ max_score s l := by
  induction l with
  | nil => intro s; exact le_refl s
  | cons a t ih =>
    intro s
    exact le_trans (le_max_left s (score a.info.device_type)) (ih _)

/-- Every member's score is at most the running maximum. -/
theorem mem_le_max_score (l : List Adapter) :
    ∀ (s : Int) (a : Adapter), a ∈ l →
      score a.info.device_type ≤ max_score s l := by
  induction l with
  | nil => intro s a ha; cases ha
  | cons x t ih =>
    intro s a ha
    rcases List.mem_cons.mp ha with rfl | ha
    · exact le_trans (le_max_right s (score a.info.device_type))
        (le_max_score t _)
    · exact ih _ a ha

/-- If nothing in the list strictly beats the running score, the
BestAvailable fold is inert. -/
theorem best_fold_inert (l : List Adapter) :
    ∀ (b : Option Adapter) (s : Int),
      (∀ a ∈ l, score a.info.device_type ≤ s) →
      l.foldl best_step (b, s) = (b, s) := by
  induction l with
  | nil => intro b s _; rfl
  | cons a t ih =>
    intro b s h
    have ha := h a (List.mem_cons_self a t)
    rw [List.foldl_cons, show best_step (b, s) a = (b, s) from by
      simp [best_step, not_lt.mpr ha]]
    exact ih b s fun x hx => h x (List.mem_cons_of_mem a hx)

/-- The BestAvailable fold returns the first adapter attaining the running
maximum, whenever some adapter strictly beats the starting score. -/
theorem best_fold_find (l : List Adapter) :
    ∀ (b : Option Adapter) (s : Int), s < max_score s l →
      (l.foldl best_step (b, s)).1
        = l.find? fun a => score a.info.device_type == max_score s l := by
  induction l with
  | nil => intro b s h; exact absurd h (lt_irrefl s)
  | cons a t ih =>
    intro b s h
    by_cases hlt : s < score a.info.device_type
    · rw [List.foldl_cons, show best_step (b, s) a
          = (some a, score a.info.device_type) from by simp [best_step, hlt]]
      have hM : max_score s (a :: t)
          = max_score (score a.info.device_type) t := by
        show max_score (max s (score a.info.device_type)) t = _
        rw [max_eq_right hlt.le]
      rw [hM]
      by_cases htop :
          max_score (score a.info.device_type) t = score a.info.device_type
      · rw [best_fold_inert t (some a) (score a.info.device_type)
          fun x hx => htop ▸ mem_le_max_score t _ x hx]
        rw [List.find?_cons_of_pos t (by simp [htop])]
      · have hlt2 : score a.info.device_type
            < max_score (score a.info.device_type) t :=
          lt_of_le_of_ne (le_max_score t _) fun heq => htop heq.symm
        rw [List.find?_cons_of_neg t (by simp; exact ne_of_lt hlt2),
          ih (some a) (score a.info.device_type) hlt2]
    · rw [List.foldl_cons, show best_step (b, s) a = (b, s) from by
        simp [best_step, hlt]]
      have hM : max_score s (a :: t) = max_score s t := by
        show max_score (max s (score a.info.device_type)) t = _
        rw [max_eq_left (not_lt.mp hlt)]
      rw [hM] at h ⊢
      have hne : score a.info.device_type ≠ max_score s t :=
        ne_of_lt (lt_of_le_of_lt (not_lt.mp hlt) h)
      rw [List.find?_cons_of_neg t (by simp [hne]), ih b s h]

/-- `max_score` over an appended list. -/
theorem max_score_append (x y : List Adapter) (s : Int) :
    max_score s (x ++ y) = max_score (max_score s x) y :=
  List.foldl_append _ s x y

/-- Starting the running maximum at `max s c` is taking the maximum with `c`
afterwards. -/
theorem max_score_max (l : List Adapter) :
    ∀ s c : Int, max_score (max s c) l = max (max_score s l) c := by
  induction l with
  | nil => intro s c; rfl
  | cons a t ih =>
    intro s c
    show max_score (max (max s c) (score a.info.device_type)) t
        = max (max_score (max s (score a.info.device_type)) t) c
    rw [max_assoc s c (score a.info.device_type),
      max_comm c (score a.info.device_type),
      ← max_assoc s (score a.info.device_type) c, ih]

/-- The stable partition used by BestAvailable keeps the running maximum of
the original enumeration. -/
theorem max_score_partition (p : Adapter → Bool) (l : List Adapter) :
    ∀ s : Int,
      max_score s ((l.filter p) ++ l.filter fun a => !p a)
        = max_score s l := by
  induction l with
  | nil => intro s; rfl
  | cons a t ih =>
    intro s
    by_cases hp : p a
    · rw [List.filter_cons_of_pos hp, List.filter_cons_of_neg (by simp [hp]),
        List.cons_append]
      show max_score (max s (score a.info.device_type))
          ((t.filter p) ++ t.filter fun x => !p x) = _
      rw [ih]
      rfl
    · rw [List.filter_cons_of_neg hp, List.filter_cons_of_pos (by simp [hp]),
        max_score_append]
      show max_score (max (max_score s (t.filter p))
          (score a.info.device_type)) (t.filter fun x => !p x) = _
      rw [← max_score_max (t.filter p) s (score a.info.device_type),
        ← max_score_append, ih]
      rfl

/-- Dropping an element the search predicate rejects from the middle of a
list does not change `find?`. -/
theorem find?_drop_middle (q : Adapter → Bool) (a : Adapter)
    (ha : ¬ q a = true) (y : List Adapter) :
    ∀ x : List Adapter, ((x ++ a :: y).find? q) = (x ++ y).find? q := by
  intro x
  induction x with
  | nil => simpa using List.find?_cons_of_neg y ha
  | cons b x ih =>
    by_cases hb : q b
    · simp only [List.cons_append]
      rw [List.find?_cons_of_pos _ hb, List.find?_cons_of_pos _ hb]
    · simp only [List.cons_append]
      rw [List.find?_cons_of_neg _ hb, List.find?_cons_of_neg _ hb, ih]

/-- When every hit of the search predicate passes the partition predicate,
searching the stable partition equals searching the original list. -/
theorem find?_partition_pos (q p : Adapter → Bool)
    (hq : ∀ a, q a = true → p a = true) (l : List Adapter) :
    ((l.filter p) ++ l.filter fun a => !p a).find? q = l.find? q := by
  induction l with
  | nil => rfl
  | cons a t ih =>
    by_cases hqa : q a
    · have hpa : p a = true := hq a hqa
      rw [List.filter_cons_of_pos hpa, List.filter_cons_of_neg (by simp [hpa]),
        List.cons_append, List.find?_cons_of_pos _ hqa,
        List.find?_cons_of_pos _ hqa]
    · by_cases hpa : p a
      · rw [List.filter_cons_of_pos hpa,
          List.filter_cons_of_neg (by simp [hpa]), List.cons_append,
          List.find?_cons_of_neg _ hqa, List.find?_cons_of_neg _ hqa, ih]
      · rw [List.filter_cons_of_neg hpa,
          List.filter_cons_of_pos (by simp [hpa]),
          find?_drop_middle q a hqa _ _, List.find?_cons_of_neg _ hqa, ih]

/-- A prefix rejected throughout by the search predicate does not affect
`find?`. -/
theorem find?_append_all_neg (q : Adapter → Bool) (y : List Adapter) :
    ∀ x : List Adapter, (∀ b ∈ x, ¬ q b = true) →
      (x ++ y).find? q = y.find? q := by
  intro x
  induction x with
  | nil => intro _; rfl
  | cons c x ih =>
    intro h
    rw [List.cons_append,
      List.find?_cons_of_neg _ (h c (List.mem_cons_self c x)),
      ih fun b hb => h b (List.mem_cons_of_mem c hb)]

/-- When every hit of the search predicate fails the partition predicate,
searching the stable partition equals searching the original list. -/
theorem find?_partition_neg (q p : Adapter → Bool)
    (hq : ∀ a, q a = true → p a = false) (l : List Adapter) :
    ((l.filter p) ++ l.filter fun a => !p a).find? q = l.find? q := by
  induction l with
  | nil => rfl
  | cons a t ih =>
    by_cases hqa : q a
    · have hpa : p a = false := hq a hqa
      have hother : ∀ b ∈ t.filter p, ¬ q b = true := by
        intro b hb hqb
        have hpb := (List.mem_filter.mp hb).2
        rw [hq b hqb] at hpb
        cases hpb
      rw [List.filter_cons_of_neg (by simp [hpa]),
        List.filter_cons_of_pos (by simp [hpa]),
        find?_append_all_neg q _ _ hother,
        List.find?_cons_of_pos _ hqa, List.find?_cons_of_pos _ hqa]
    · by_cases hpa : p a
      · rw [List.filter_cons_of_pos hpa,
          List.filter_cons_of_neg (by simp [hpa]), List.cons_append,
          List.find?_cons_of_neg _ hqa, List.find?_cons_of_neg _ hqa, ih]
      · rw [List.filter_cons_of_neg hpa,
          List.filter_cons_of_pos (by simp [hpa]),
          find?_drop_middle q a hqa _ _, List.find?_cons_of_neg _ hqa, ih]

/-- Every device type scores at least 1. -/
theorem one_le_score (t : DeviceType) : 1 ≤ score t := by
  cases t <;> decide

/-- Score 4 characterizes the `Other` device type. -/
theorem score_eq_four_iff (t : DeviceType) :
    score t = 4 ↔ t = DeviceType.Other := by
  cases t <;> decide

/-- The same-type filter for `BestAvailable` is the non-`Other` filter
(`is_same_type` is constantly true there). -/
theorem best_available_filter_eq (enumerated : List Adapter) :
    (enumerated.filter fun a =>
        a.info.device_type != DeviceType.Other &&
          is_same_type WgpuDevice.BestAvailable a.info.device_type)
      = enumerated.filter fun a =>
          a.info.device_type != DeviceType.Other := by
  apply List.filter_congr
  intro a _
  simp [is_same_type]

/-- The `Other` filter is the complement of the non-`Other` filter. -/
theorem other_filter_eq (enumerated : List Adapter) :
    (enumerated.filter fun a => a.info.device_type == DeviceType.Other)
      = enumerated.filter fun a =>
          !(a.info.device_type != DeviceType.Other) := by
  apply List.filter_congr
  intro a _
  rw [bne, Bool.not_not]

/-- C9: for `BestAvailable`, adapter selection returns the first adapter in
enumeration order among those attaining the maximum score under the fixed
ranking DiscreteGpu 5, Other 4, IntegratedGpu 3, VirtualGpu 2, Cpu 1, and
panics exactly when the adapter list is empty. -/
theorem best_available_picks_first_max (enumerated : List Adapter) :
    (select_adapter WgpuDevice.BestAvailable enumerated =
      match enumerated.find?
          (fun a => score a.info.device_type == max_score (-1) enumerated) with
      | some adapter => Except.ok adapter
      | none => Except.error "No adapter found for graphics API") ∧
    (enumerated = [] →
      select_adapter WgpuDevice.BestAvailable enumerated
        = Except.error "No adapter found for graphics API") ∧
    (∀ a ∈ enumerated,
      score a.info.device_type ≤ max_score (-1) enumerated) ∧
    score DeviceType.DiscreteGpu = 5 ∧ score DeviceType.Other = 4 ∧
    score DeviceType.IntegratedGpu = 3 ∧ score DeviceType.VirtualGpu = 2 ∧
    score DeviceType.Cpu = 1 := by
  refine ⟨?_, ?_, fun a ha => mem_le_max_score enumerated (-1) a ha,
    rfl, rfl, rfl, rfl, rfl⟩
  · have hred : select_adapter WgpuDevice.BestAvailable enumerated
        = match select_best
            ((enumerated.filter fun a =>
                a.info.device_type != DeviceType.Other &&
                  is_same_type WgpuDevice.BestAvailable a.info.device_type)
              ++ enumerated.filter fun a =>
                  a.info.device_type == DeviceType.Other) with
          | some adapter => Except.ok adapter
          | none => Except.error "No adapter found for graphics API" := rfl
    rw [hred, best_available_filter_eq, other_filter_eq]
    by_cases hnil : enumerated = []
    · subst hnil; rfl
    · have hM : max_score (-1)
          ((enumerated.filter fun a =>
              a.info.device_type != DeviceType.Other)
            ++ enumerated.filter fun a =>
              !(a.info.device_type != DeviceType.Other))
          = max_score (-1) enumerated :=
        max_score_partition
          (fun a => a.info.device_type != DeviceType.Other) enumerated (-1)
      have hpos : (-1 : Int) < max_score (-1) enumerated := by
        obtain ⟨x, hx⟩ := List.exists_mem_of_ne_nil enumerated hnil
        exact lt_of_lt_of_le (by norm_num)
          (le_trans (one_le_score x.info.device_type)
            (mem_le_max_score enumerated (-1) x hx))
      have hfold := best_fold_find
        ((enumerated.filter fun a => a.info.device_type != DeviceType.Other)
          ++ enumerated.filter fun a =>
            !(a.info.device_type != DeviceType.Other))
        none (-1) (by rw [hM]; exact hpos)
      rw [show select_best
          ((enumerated.filter fun a =>
              a.info.device_type != DeviceType.Other)
            ++ enumerated.filter fun a =>
              !(a.info.device_type != DeviceType.Other))
          = _ from hfold, hM]
      by_cases hfour : max_score (-1) enumerated = 4
      · rw [find?_partition_neg
          (fun a => score a.info.device_type == max_score (-1) enumerated)
          (fun a => a.info.device_type != DeviceType.Other)
          (by
            intro a ha
            have hsc : score a.info.device_type
                = max_score (-1) enumerated := by simpa using ha
            have hot : a.info.device_type = DeviceType.Other :=
              (score_eq_four_iff _).mp (hfour ▸ hsc)
            simp [hot])
          enumerated]
      · rw [find?_partition_pos
          (fun a => score a.info.device_type == max_score (-1) enumerated)
          (fun a => a.info.device_type != DeviceType.Other)
          (by
            intro a ha
            have hsc : score a.info.device_type
                = max_score (-1) enumerated := by simpa using ha
            have hno : a.info.device_type ≠ DeviceType.Other := by
              intro hcon
              apply hfour
              rw [← hsc, hcon]
              rfl
            simp [hno])
          enumerated]
  · intro h
    subst h
    rfl

/-- Witness for C9: in the enumeration Cpu, Other, DiscreteGpu, DiscreteGpu,
the first discrete GPU — the first adapter attaining the top score 5 — is
selected. -/
theorem best_available_picks_first_max_witness :
    select_adapter WgpuDevice.BestAvailable
        [⟨⟨0, "vk", DeviceType.Cpu⟩⟩, ⟨⟨1, "vk", DeviceType.Other⟩⟩,
          ⟨⟨2, "vk", DeviceType.DiscreteGpu⟩⟩,
          ⟨⟨3, "vk", DeviceType.DiscreteGpu⟩⟩]
      = Except.ok ⟨⟨2, "vk", DeviceType.DiscreteGpu⟩⟩ := by
  rw [(best_available_picks_first_max _).1]
  rfl

end Burn
